import Mathlib

/-!
Shallow embedding of the two dialog controllers of the repository:
`ListCreatorDialog` (src/src/views/dialogs/list_creator_dialog.py) and
`SpeedDialDialog` (src/src/views/speed_dial_dialog.py).

GUI plumbing (layout, styling, signals) is not modelled; the data-shaping
and validation logic is translated function by function.  Python string
operations (`strip`, `len`, `split(',')`, `startswith`) are modelled by
the `py*` functions below, Python string falsiness by comparison with
`""`, and the Qt combo box `currentData()` by an `Option Int` (`none`
when no item is selected); Python integer falsiness makes `0` falsy.
-/

namespace WidgSid

/-- Python truthiness of an optional integer (`None` and `0` are falsy). -/
def optIntTruthy : Option Int → Bool
  | none => false
  | some n => n != 0

/-! Section: List creator dialog: step collection state

A `StepItemWidget` is modelled by its identity (`id`) and its displayed
step number (`number`); the label text lives in the form state instead,
since the structural operations never read it. -/

structure StepW where
  id : Nat
  number : Nat
deriving DecidableEq, Repr

/-- `update_step_numbers` (list_creator_dialog.py:471-479): for each index
`i`, the widget's displayed number is set to `i + 1`.  Written as a
recursion on the list with the next number to assign as accumulator. -/
def renumberFrom (k : Nat) : List StepW → List StepW
  | [] => []
  | w :: ws => { w with number := k } :: renumberFrom (k + 1) ws

def update_step_numbers (ws : List StepW) : List StepW :=
  renumberFrom 1 ws

/-- `add_step` (list_creator_dialog.py:389-408): appends a fresh widget
constructed with `step_number = len + 1`, then renumbers. -/
def add_step (ws : List StepW) : List StepW :=
  update_step_numbers (ws ++ [{ id := ws.length, number := ws.length + 1 }])

/-- `delete_step` (list_creator_dialog.py:410-431): refuses (with a warning
box, the `Bool` component) when at most one widget remains; otherwise
removes the widget at index `i` and renumbers. -/
def delete_step (ws : List StepW) (i : Nat) : List StepW × Bool :=
  if ws.length ≤ 1 then (ws, true)
  else if i < ws.length then (update_step_numbers (ws.eraseIdx i), false)
  else (ws, false)

/-- The Python tuple swap `ws[i], ws[j] = ws[j], ws[i]` on valid indices. -/
def listSwap (ws : List StepW) (i j : Nat) : List StepW :=
  match ws[i]?, ws[j]? with
  | some a, some b => (ws.set i b).set j a
  | _, _ => ws

/-- `move_step_up` (list_creator_dialog.py:433-445): returns unchanged at
index 0, otherwise swaps with the predecessor and renumbers. -/
def move_step_up (ws : List StepW) (i : Nat) : List StepW :=
  if i = 0 then ws
  else if i < ws.length then update_step_numbers (listSwap ws i (i - 1))
  else ws

/-- `move_step_down` (list_creator_dialog.py:447-459): returns unchanged at
the last index (`index >= len - 1`), otherwise swaps with the successor
and renumbers. -/
def move_step_down (ws : List StepW) (i : Nat) : List StepW :=
  if ws.length - 1 ≤ i then ws
  else update_step_numbers (listSwap ws i (i + 1))

/-- A structural user action on the step collection. -/
inductive StepOp
  | add
  | delete (i : Nat)
  | up (i : Nat)
  | down (i : Nat)

def applyOp (ws : List StepW) : StepOp → List StepW
  | .add => add_step ws
  | .delete i => (delete_step ws i).1
  | .up i => move_step_up ws i
  | .down i => move_step_down ws i

def applyOps (ws : List StepW) (ops : List StepOp) : List StepW :=
  ops.foldl applyOp ws

/-- The constructor (list_creator_dialog.py:73-75) calls `add_step` twice
on the initially empty collection. -/
def initSteps : List StepW :=
  add_step (add_step [])

/-! Section: Basic lemmas about renumbering and the structural operations -/

theorem renumberFrom_length (k : Nat) (ws : List StepW) :
    (renumberFrom k ws).length = ws.length := by
  induction ws generalizing k with
  | nil => rfl
  | cons w ws ih => simp [renumberFrom, ih]

theorem renumberFrom_map_number (k : Nat) (ws : List StepW) :
    (renumberFrom k ws).map (·.number) = List.range' k ws.length := by
  induction ws generalizing k with
  | nil => rfl
  | cons w ws ih => simp [renumberFrom, List.range'_succ, ih]

theorem renumberFrom_map_id (k : Nat) (ws : List StepW) :
    (renumberFrom k ws).map (·.id) = ws.map (·.id) := by
  induction ws generalizing k with
  | nil => rfl
  | cons w ws ih => simp [renumberFrom, ih]

theorem update_step_numbers_length (ws : List StepW) :
    (update_step_numbers ws).length = ws.length :=
  renumberFrom_length 1 ws

theorem update_step_numbers_map_number (ws : List StepW) :
    (update_step_numbers ws).map (·.number) = List.range' 1 ws.length :=
  renumberFrom_map_number 1 ws

theorem update_step_numbers_map_id (ws : List StepW) :
    (update_step_numbers ws).map (·.id) = ws.map (·.id) :=
  renumberFrom_map_id 1 ws

/-- The dense-numbering invariant together with the population floor. -/
def StepsInv (ws : List StepW) : Prop :=
  ws.map (·.number) = List.range' 1 ws.length ∧ 1 ≤ ws.length

theorem stepsInv_update (ws : List StepW) (h : 1 ≤ ws.length) :
    StepsInv (update_step_numbers ws) := by
  refine ⟨?_, ?_⟩
  · rw [update_step_numbers_map_number, update_step_numbers_length]
  · rw [update_step_numbers_length]; exact h

theorem listSwap_length (ws : List StepW) (i j : Nat) :
    (listSwap ws i j).length = ws.length := by
  unfold listSwap
  cases hi : ws[i]? <;> cases hj : ws[j]? <;> simp [hi, hj]

theorem applyOp_inv (ws : List StepW) (op : StepOp) (h : StepsInv ws) :
    StepsInv (applyOp ws op) := by
  obtain ⟨hnum, hlen⟩ := h
  cases op with
  | add =>
      refine stepsInv_update _ ?_
      simp
  | delete i =>
      show StepsInv (delete_step ws i).1
      unfold delete_step
      by_cases h1 : ws.length ≤ 1
      · simp only [h1, if_true]; exact ⟨hnum, hlen⟩
      · by_cases h2 : i < ws.length
        · simp only [h1, h2, if_false, if_true]
          refine stepsInv_update _ ?_
          have := List.length_eraseIdx_add_one h2
          omega
        · simp only [h1, h2, if_false]; exact ⟨hnum, hlen⟩
  | up i =>
      show StepsInv (move_step_up ws i)
      unfold move_step_up
      by_cases h0 : i = 0
      · simp only [h0, if_true]; exact ⟨hnum, hlen⟩
      · by_cases h2 : i < ws.length
        · simp only [h0, h2, if_false, if_true]
          refine stepsInv_update _ ?_
          rw [listSwap_length]; exact hlen
        · simp only [h0, h2, if_false]; exact ⟨hnum, hlen⟩
  | down i =>
      show StepsInv (move_step_down ws i)
      unfold move_step_down
      by_cases h1 : ws.length - 1 ≤ i
      · simp only [h1, if_true]; exact ⟨hnum, hlen⟩
      · simp only [h1, if_false]
        refine stepsInv_update _ ?_
        rw [listSwap_length]; exact hlen

theorem applyOps_inv (ops : List StepOp) (ws : List StepW) (h : StepsInv ws) :
    StepsInv (applyOps ws ops) := by
  induction ops generalizing ws with
  | nil => exact h
  | cons op ops ih => exact ih (applyOp ws op) (applyOp_inv ws op h)

theorem initSteps_inv : StepsInv initSteps := by
  constructor <;> decide

/-! Section: Python string primitives

The dialogs use `str.strip`, `len`, `str.split(',')` and `str.startswith`.
They are modelled by structural recursion over the character list so that
every concrete instance evaluates inside the kernel. -/

/-- Characters removed by Python `str.strip()` (ASCII whitespace). -/
def pyIsSpace (c : Char) : Bool :=
  c == ' ' || c == '\t' || c == '\n' || c == '\r' || c == '\x0b' || c == '\x0c'

def pyStripChars (l : List Char) : List Char :=
  ((l.dropWhile pyIsSpace).reverse.dropWhile pyIsSpace).reverse

/-- Python `s.strip()`. -/
def pyStrip (s : String) : String :=
  ⟨pyStripChars s.data⟩

/-- Python `len(s)` (number of code points). -/
def pyLen (s : String) : Nat :=
  s.data.length

def splitCommaAux : List Char → List Char → List (List Char)
  | [], acc => [acc.reverse]
  | c :: cs, acc =>
      if c = ',' then acc.reverse :: splitCommaAux cs []
      else splitCommaAux cs (c :: acc)

/-- Python `s.split(',')`. -/
def pySplitComma (s : String) : List String :=
  (splitCommaAux s.data []).map (fun l => ⟨l⟩)

/-- Python `s.startswith(p)`. -/
def pyStartsWith (s p : String) : Bool :=
  p.data.isPrefixOf s.data

/-- Python string concatenation. -/
def pyCat (a b : String) : String :=
  ⟨a.data ++ b.data⟩

/-! Section: List creator dialog: form state, validation, payload -/

/-- The form fields of `ListCreatorDialog` that the validation and payload
logic reads: the raw name text, the combo box's `currentData()` (`none`
when nothing is selected), the raw common-tags text, and the raw label
text of every `StepItemWidget` in order. -/
structure ListForm where
  name_text : String
  category : Option Int
  common_tags_text : String
  step_labels : List String
deriving DecidableEq, Repr

/-- Modelled from the spec: `StepItemWidget.has_label` is not under `src/`;
per §3 of the spec a step entry is non-empty iff its label is non-blank
after trimming. -/
def has_label (label_text : String) : Bool :=
  pyStrip label_text ≠ ""

def msgNameEmpty : String := "El nombre de la lista no puede estar vacío"
def msgNameTooLong : String := "El nombre es demasiado largo (máximo 100 caracteres)"
def msgNoCategory : String := "Debe seleccionar una categoría"
def msgNoSteps : String := "Debe haber al menos 1 paso con nombre"

/-- `validate_form` (list_creator_dialog.py:507-532): sequential early
returns; `if not category_id` is a Python truthiness test. -/
def validate_form (f : ListForm) : Bool × String :=
  if pyStrip f.name_text = "" then (false, msgNameEmpty)
  else if 100 < pyLen (pyStrip f.name_text) then (false, msgNameTooLong)
  else if optIntTruthy f.category = false then (false, msgNoCategory)
  else if (f.step_labels.filter has_label).length = 0 then (false, msgNoSteps)
  else (true, "")

/-- The messages the live name handler can leave in the validation label. -/
inductive NameMsg
  | empty
  | tooLong
  | duplicate
  | ok
deriving DecidableEq, Repr

/-- `on_name_changed` (list_creator_dialog.py:487-505).  `isUnique` stands
for the external `db.is_list_name_unique` answer.  Note the length test
runs on the raw `text`, not on `text.strip()`. -/
def on_name_changed (text : String) (category : Option Int) (isUnique : Bool) : NameMsg :=
  if pyStrip text = "" then .empty
  else if 100 < pyLen text then .tooLong
  else if optIntTruthy category = true ∧ pyStrip text ≠ "" then
    if isUnique = false then .duplicate else .ok
  else .ok

/-- A step record as returned by `StepItemWidget.get_step_data` and
extended with tags in `get_steps_data`. -/
structure StepData where
  label : String
  tags : List String
deriving DecidableEq, Repr

/-- Modelled from the spec: `StepItemWidget.get_step_data` is not under
`src/`; per §3 of the spec an entry is non-empty iff its label is
non-blank after trimming, and `get_steps_data` treats the returned
`data['label']` as falsy exactly for blank labels, so the widget reports
its trimmed label text.  Tags are attached only at submission time. -/
def get_step_data (label_text : String) : StepData :=
  { label := pyStrip label_text, tags := [] }

/-- Parsing of the comma-separated common-tags field
(list_creator_dialog.py:556-562). -/
def parse_common_tags (text : String) : List String :=
  if pyStrip text = "" then []
  else ((pySplitComma (pyStrip text)).map pyStrip).filter (fun t => t ≠ "")

/-- The automatic tags (list_creator_dialog.py:567-570). -/
def auto_tags (list_name : String) : List String :=
  if list_name = "" then ["lista"] else ["lista", list_name]

/-- The merge loop of list_creator_dialog.py:572-576: append each common
tag unless it is already present. -/
def merge_tags (auto common : List String) : List String :=
  common.foldl (fun acc tag => if tag ∈ acc then acc else acc ++ [tag]) auto

def final_tags (name_text common_text : String) : List String :=
  merge_tags (auto_tags (pyStrip name_text)) (parse_common_tags common_text)

/-- `get_steps_data` (list_creator_dialog.py:546-586): build the final tag
list once, then collect every step whose label is non-empty, attaching a
copy of the tag list. -/
def get_steps_data (name_text common_text : String) (step_labels : List String) :
    List StepData :=
  step_labels.foldl
    (fun sd w =>
      if (get_step_data w).label ≠ "" then
        sd ++ [{ get_step_data w with tags := final_tags name_text common_text }]
      else sd)
    []

/-- The tag sequence as the specification words it: the auto-tags, then
the common tags in input order, each appended only when not already
present (case-sensitive exact match). -/
def merge_tags_spec (auto : List String) : List String → List String
  | [] => auto
  | t :: ts =>
      if t ∈ auto then merge_tags_spec auto ts
      else merge_tags_spec (auto ++ [t]) ts

/-! Section: Speed dial dialog -/

/-- The record emitted with the `speed_dial_added` signal
(speed_dial_dialog.py:271-277). -/
structure SpeedDial where
  id : Int
  title : String
  url : String
  icon : String
  background_color : String
deriving DecidableEq, Repr

/-- The dialog state read by `_save_speed_dial`: the mode flag fixed at
construction, the id of the record being edited (edit mode only), the raw
field texts and the selected colour. -/
structure SpeedDialState where
  is_edit_mode : Bool
  edit_id : Int
  title_text : String
  url_text : String
  icon_text : String
  selected_color : String
deriving DecidableEq, Repr

deriving instance DecidableEq for Except

/-- The database collaborator's behaviour at this submit: what
`update_speed_dial` and `add_speed_dial` would return, or the exception
they would raise (`Except.error`). -/
structure DBStub where
  updateRes : Except String Bool
  addRes : Except String (Option Int)
deriving DecidableEq, Repr

/-- Everything observable from one `_save_speed_dial` run: whether
`accept()` closed the dialog, the `speed_dial_added` payload if emitted,
whether a persistence error was logged, which field got focus on a
validation failure, and which collaborator call was made. -/
structure SaveOutcome where
  accepted : Bool
  emitted : Option SpeedDial
  persistError : Bool
  focusTitle : Bool
  focusUrl : Bool
  calledUpdate : Option Int
  calledAdd : Bool
deriving DecidableEq, Repr

def defaultIcon : String := "🌐"

/-- The URL handling of `_save_speed_dial` (speed_dial_dialog.py:222 and
231-238): trim, reject blank, then prepend the scheme when missing. -/
def normalize_url (raw : String) : Option String :=
  if pyStrip raw = "" then none
  else if pyStartsWith (pyStrip raw) "http://" || pyStartsWith (pyStrip raw) "https://" then
    some (pyStrip raw)
  else some (pyCat "https://" (pyStrip raw))

/-- `_save_speed_dial` (speed_dial_dialog.py:219-284).  The whole
collaborator interaction sits inside `try/except`, so a raised exception
(`Except.error`) is absorbed into a logged persistence error. -/
def save_speed_dial (st : SpeedDialState) (db : DBStub) : SaveOutcome :=
  if pyStrip st.title_text = "" then
    { accepted := false, emitted := none, persistError := false,
      focusTitle := true, focusUrl := false, calledUpdate := none, calledAdd := false }
  else if pyStrip st.url_text = "" then
    { accepted := false, emitted := none, persistError := false,
      focusTitle := false, focusUrl := true, calledUpdate := none, calledAdd := false }
  else
    if st.is_edit_mode then
      match db.updateRes with
      | .ok true =>
          { accepted := true, emitted := none, persistError := false,
            focusTitle := false, focusUrl := false,
            calledUpdate := some st.edit_id, calledAdd := false }
      | .ok false =>
          { accepted := false, emitted := none, persistError := true,
            focusTitle := false, focusUrl := false,
            calledUpdate := some st.edit_id, calledAdd := false }
      | .error _ =>
          { accepted := false, emitted := none, persistError := true,
            focusTitle := false, focusUrl := false,
            calledUpdate := some st.edit_id, calledAdd := false }
    else
      match db.addRes with
      | .ok (some n) =>
          if n != 0 then
            { accepted := true,
              emitted := some
                { id := n, title := pyStrip st.title_text,
                  url := if pyStartsWith (pyStrip st.url_text) "http://"
                            || pyStartsWith (pyStrip st.url_text) "https://" then
                           pyStrip st.url_text
                         else pyCat "https://" (pyStrip st.url_text),
                  icon := if pyStrip st.icon_text = "" then defaultIcon
                          else pyStrip st.icon_text,
                  background_color := st.selected_color },
              persistError := false, focusTitle := false, focusUrl := false,
              calledUpdate := none, calledAdd := true }
          else
            { accepted := false, emitted := none, persistError := true,
              focusTitle := false, focusUrl := false,
              calledUpdate := none, calledAdd := true }
      | .ok none =>
          { accepted := false, emitted := none, persistError := true,
            focusTitle := false, focusUrl := false,
            calledUpdate := none, calledAdd := true }
      | .error _ =>
          { accepted := false, emitted := none, persistError := true,
            focusTitle := false, focusUrl := false,
            calledUpdate := none, calledAdd := true }

/-! Section: List creator dialog: the submit handler -/

/-- Everything observable from one `create_list` run when no exception
escapes: whether the dialog closed, the `list_created` payload if emitted,
whether the collaborator's error message was shown, and the validation
message if validation stopped the submit. -/
structure CreateOutcome where
  accepted : Bool
  emittedList : Option (String × Int × List Int)
  errorShown : Bool
  validationMsg : Option String
deriving DecidableEq, Repr

/-- `create_list` (list_creator_dialog.py:588-613).  `ctrl` is the stubbed
result of `list_controller.create_list`: the returned triple
`(success, message, item_ids)` or a raised exception.  The source wraps
nothing in `try/except` here, so a raised exception propagates out of the
submit handler, which the result type records as `Except.error`. -/
def create_list (f : ListForm) (ctrl : Except String (Bool × String × List Int)) :
    Except String CreateOutcome :=
  match validate_form f with
  | (false, msg) =>
      .ok { accepted := false, emittedList := none, errorShown := false,
            validationMsg := some msg }
  | (true, _) =>
      match ctrl with
      | .error e => .error e
      | .ok (success, _message, item_ids) =>
          if success then
            .ok { accepted := true,
                  emittedList := some (pyStrip f.name_text, f.category.getD 0, item_ids),
                  errorShown := false, validationMsg := none }
          else
            .ok { accepted := false, emittedList := none, errorShown := true,
                  validationMsg := none }

/-! Section: Lemmas about the tag merge and the payload loop -/

theorem merge_tags_eq_spec (common auto : List String) :
    merge_tags auto common = merge_tags_spec auto common := by
  induction common generalizing auto with
  | nil => rfl
  | cons t ts ih =>
      unfold merge_tags merge_tags_spec
      by_cases h : t ∈ auto
      · rw [List.foldl_cons, if_pos h, if_pos h]
        exact ih auto
      · rw [List.foldl_cons, if_neg h, if_neg h]
        exact ih (auto ++ [t])

theorem steps_foldl_eq (name_text common_text : String) (labels : List String)
    (acc : List StepData) :
    labels.foldl
      (fun sd w =>
        if (get_step_data w).label ≠ "" then
          sd ++ [{ get_step_data w with tags := final_tags name_text common_text }]
        else sd)
      acc
    = acc ++ ((labels.map pyStrip).filter (fun l => l ≠ "")).map
        (fun l => { label := l, tags := final_tags name_text common_text }) := by
  induction labels generalizing acc with
  | nil => simp
  | cons w ws ih =>
      rw [List.foldl_cons, ih]
      by_cases h : pyStrip w = "" <;>
        simp [get_step_data, h, List.filter_cons]

/-- C1: `get_steps_data` keeps exactly the steps whose label is non-blank
after trimming, in order, and gives each of them the tag sequence built
from the auto-tags (`"lista"`, then the trimmed list name unless blank)
followed by the comma-parsed common tags in input order, trimmed, with
empty entries dropped and tags already present dropped (case-sensitive);
in particular name `"Deploy"` with common input `"git, Deploy, prod"`
yields tags `["lista", "Deploy", "git", "prod"]`. -/
theorem c1_steps_payload : (∀ name common : String, ∀ labels : List String,
    get_steps_data name common labels
      = ((labels.map pyStrip).filter (fun l => l ≠ "")).map
          (fun l => { label := l,
                      tags := merge_tags_spec (auto_tags (pyStrip name))
                                (parse_common_tags common) }))
    ∧ final_tags "Deploy" "git, Deploy, prod" = ["lista", "Deploy", "git", "prod"]
    ∧ get_steps_data "Deploy" "git, Deploy, prod" ["  build ", "   "]
        = [{ label := "build", tags := ["lista", "Deploy", "git", "prod"] }] := by
  refine ⟨?_, by decide, by decide⟩
  intro name common labels
  unfold get_steps_data
  rw [steps_foldl_eq, List.nil_append]
  unfold final_tags
  rw [merge_tags_eq_spec]

/-- C2 counterexample: a form whose category data is `0` satisfies every
rule of the claim (non-blank name of length at most 100, a non-null
category, one non-blank step label), yet `validate_form` rejects it with
the category message, because the source tests Python truthiness
(`if not category_id`), not non-nullness. -/
theorem c2_counterexample :
    ({ name_text := "x", category := some 0, common_tags_text := "",
       step_labels := ["a"] } : ListForm).category ≠ none
    ∧ pyStrip "x" ≠ ""
    ∧ pyLen (pyStrip "x") ≤ 100
    ∧ has_label "a" = true
    ∧ validate_form
        { name_text := "x", category := some 0, common_tags_text := "",
          step_labels := ["a"] } = (false, msgNoCategory) := by
  refine ⟨by simp, by decide, by decide, by decide, by decide⟩

/-- C2 (amended): `validate_form` checks, in order and short-circuiting:
non-blank trimmed name, trimmed length at most 100, category data truthy
(non-null and non-zero, Python falsiness), at least one step with a
non-blank label; it returns the first violated rule's message and is
valid iff all four hold. -/
theorem c2_validate_form (f : ListForm) :
    ((validate_form f).1 = true ↔
        (pyStrip f.name_text ≠ "" ∧ pyLen (pyStrip f.name_text) ≤ 100 ∧
         optIntTruthy f.category = true ∧ (f.step_labels.filter has_label).length ≠ 0))
    ∧ (pyStrip f.name_text = "" → validate_form f = (false, msgNameEmpty))
    ∧ (pyStrip f.name_text ≠ "" → 100 < pyLen (pyStrip f.name_text) →
        validate_form f = (false, msgNameTooLong))
    ∧ (pyStrip f.name_text ≠ "" → pyLen (pyStrip f.name_text) ≤ 100 →
        optIntTruthy f.category = false → validate_form f = (false, msgNoCategory))
    ∧ (pyStrip f.name_text ≠ "" → pyLen (pyStrip f.name_text) ≤ 100 →
        optIntTruthy f.category = true → (f.step_labels.filter has_label).length = 0 →
        validate_form f = (false, msgNoSteps))
    ∧ ((validate_form f).1 = true → validate_form f = (true, "")) := by
  unfold validate_form
  split_ifs with h1 h2 h3 h4 <;> simp_all

/-- Witness for C2: the first-listed rule wins on a form violating both
the name rule and the category rule, and a fully valid form passes. -/
theorem c2_validate_form_witness :
    validate_form
        { name_text := "", category := none, common_tags_text := "", step_labels := [] }
      = (false, msgNameEmpty)
    ∧ validate_form
        { name_text := "x", category := some 3, common_tags_text := "", step_labels := ["a"] }
      = (true, "") := by
  constructor
  · exact (c2_validate_form _).2.1 (by decide)
  · exact (c2_validate_form
        { name_text := "x", category := some 3, common_tags_text := "",
          step_labels := ["a"] }).2.2.2.2.2
      ((c2_validate_form _).1.mpr ⟨by decide, by decide, by decide, by decide⟩)

/-- C9: a freshly constructed dialog runs `add_step` twice, so it starts
with exactly two step entries numbered 1 and 2. -/
theorem c9_initial_steps :
    initSteps.length = 2 ∧ initSteps.map (·.number) = [1, 2] := by
  constructor <;> decide

/-- C10: the live name handler flags "too long" from the raw text length,
while `validate_form` measures the trimmed name, so 95 letters followed
by 10 trailing spaces draws the live warning yet validates fine. -/
theorem c10_raw_vs_trimmed :
    (∀ text : String, ∀ c : Option Int, ∀ u : Bool,
        pyStrip text ≠ "" → 100 < pyLen text →
        on_name_changed text c u = NameMsg.tooLong)
    ∧ on_name_changed (String.mk (List.replicate 95 'a' ++ List.replicate 10 ' '))
        (some 3) true = NameMsg.tooLong
    ∧ validate_form
        { name_text := String.mk (List.replicate 95 'a' ++ List.replicate 10 ' '),
          category := some 3, common_tags_text := "", step_labels := ["x"] }
      = (true, "") := by
  refine ⟨?_, by decide, by decide⟩
  intro text c u h1 h2
  unfold on_name_changed
  rw [if_neg h1, if_pos h2]

/-- Witness for C10: a 101-letter raw name triggers the live warning. -/
theorem c10_raw_vs_trimmed_witness :
    on_name_changed (String.mk (List.replicate 101 'b')) none false = NameMsg.tooLong :=
  c10_raw_vs_trimmed.1 (String.mk (List.replicate 101 'b')) none false
    (by decide) (by decide)

/-! Section: Structural claims about the step collection -/

/-- C3: after any sequence of add/delete/move operations from the freshly
constructed dialog, the displayed step numbers are exactly the dense
range `1..N` for `N` the current entry count, and `N ≥ 1` always holds. -/
theorem c3_dense_positions (ops : List StepOp) :
    (applyOps initSteps ops).map (·.number)
        = List.range' 1 (applyOps initSteps ops).length
    ∧ 1 ≤ (applyOps initSteps ops).length :=
  applyOps_inv ops initSteps initSteps_inv

/-- C4: `delete_step` on a single-entry collection warns and mutates
nothing; on a larger collection it removes exactly the chosen entry,
keeps the rest in order, and renumbers them densely from 1. -/
theorem c4_delete_step (ws : List StepW) (i : Nat) :
    (ws.length = 1 → delete_step ws i = (ws, true))
    ∧ (2 ≤ ws.length → i < ws.length →
        (delete_step ws i).2 = false
        ∧ (delete_step ws i).1.map (·.id) = (ws.eraseIdx i).map (·.id)
        ∧ (delete_step ws i).1.map (·.number) = List.range' 1 (ws.length - 1)) := by
  constructor
  · intro h1
    unfold delete_step
    rw [if_pos (by omega)]
  · intro h2 hi
    unfold delete_step
    rw [if_neg (by omega), if_pos hi]
    refine ⟨rfl, update_step_numbers_map_id _, ?_⟩
    rw [update_step_numbers_map_number]
    have := List.length_eraseIdx_add_one hi
    congr 1
    omega

/-- Witness for C4: deleting from a single entry is refused with the
warning, and deleting the first of two entries erases exactly it. -/
theorem c4_delete_step_witness :
    delete_step [⟨0, 1⟩] 5 = ([⟨0, 1⟩], true)
    ∧ (delete_step [⟨0, 1⟩, ⟨1, 2⟩] 0).1.map (·.id)
        = (([⟨0, 1⟩, ⟨1, 2⟩] : List StepW).eraseIdx 0).map (·.id) :=
  ⟨(c4_delete_step [⟨0, 1⟩] 5).1 (by decide),
   ((c4_delete_step [⟨0, 1⟩, ⟨1, 2⟩] 0).2 (by decide) (by decide)).2.1⟩

theorem listSwap_eq (ws : List StepW) (i j : Nat)
    (hi : i < ws.length) (hj : j < ws.length) :
    listSwap ws i j = (ws.set i ws[j]).set j ws[i] := by
  unfold listSwap
  rw [List.getElem?_eq_getElem hi, List.getElem?_eq_getElem hj]

theorem listSwap_getElem? (ws : List StepW) (i j k : Nat)
    (hi : i < ws.length) (hj : j < ws.length) :
    (listSwap ws i j)[k]? =
      if k = i then ws[j]? else if k = j then ws[i]? else ws[k]? := by
  rw [listSwap_eq ws i j hi hj]
  by_cases hki : k = i
  · subst hki
    rw [if_pos rfl, List.getElem?_eq_getElem hj]
    by_cases hkj : k = j
    · subst hkj
      exact List.getElem?_set_self (by simpa using hj)
    · rw [List.getElem?_set_ne (fun h => hkj h.symm),
          List.getElem?_set_self (by simpa using hi)]
  · rw [if_neg hki]
    by_cases hkj : k = j
    · subst hkj
      rw [if_pos rfl, List.getElem?_eq_getElem hi,
          List.getElem?_set_self (by simpa using hj)]
    · rw [if_neg hkj,
          List.getElem?_set_ne (fun h => hkj h.symm),
          List.getElem?_set_ne (fun h => hki h.symm)]

/-- C5: moving the first entry up or the last entry down changes nothing
and raises no error; at a non-boundary position the entry swaps with its
immediate neighbour while every other entry keeps its place. -/
theorem c5_moves (ws : List StepW) (i : Nat) :
    move_step_up ws 0 = ws
    ∧ move_step_down ws (ws.length - 1) = ws
    ∧ (0 < i → i < ws.length → ∀ k,
        ((move_step_up ws i).map (·.id))[k]? =
          if k = i then (ws.map (·.id))[i - 1]?
          else if k = i - 1 then (ws.map (·.id))[i]?
          else (ws.map (·.id))[k]?)
    ∧ (i + 1 < ws.length → ∀ k,
        ((move_step_down ws i).map (·.id))[k]? =
          if k = i then (ws.map (·.id))[i + 1]?
          else if k = i + 1 then (ws.map (·.id))[i]?
          else (ws.map (·.id))[k]?) := by
  refine ⟨?_, ?_, ?_, ?_⟩
  · unfold move_step_up
    rw [if_pos rfl]
  · unfold move_step_down
    rw [if_pos (le_refl _)]
  · intro h0 hi k
    unfold move_step_up
    rw [if_neg (by omega), if_pos hi, update_step_numbers_map_id,
        List.getElem?_map, listSwap_getElem? ws i (i - 1) k hi (by omega)]
    split_ifs <;> rw [List.getElem?_map]
  · intro hi k
    unfold move_step_down
    rw [if_neg (by omega), update_step_numbers_map_id,
        List.getElem?_map, listSwap_getElem? ws i (i + 1) k (by omega) hi]
    split_ifs <;> rw [List.getElem?_map]

/-- Witness for C5: on three entries, moving the middle one up swaps it
with the first; boundary moves are no-ops. -/
theorem c5_moves_witness :
    move_step_up ([⟨0, 1⟩, ⟨1, 2⟩] : List StepW) 0 = [⟨0, 1⟩, ⟨1, 2⟩]
    ∧ move_step_down ([⟨0, 1⟩, ⟨1, 2⟩] : List StepW) 1 = [⟨0, 1⟩, ⟨1, 2⟩]
    ∧ ((move_step_up ([⟨0, 1⟩, ⟨1, 2⟩, ⟨2, 3⟩] : List StepW) 1).map (·.id))[0]?
        = (([⟨0, 1⟩, ⟨1, 2⟩, ⟨2, 3⟩] : List StepW).map (·.id))[1]? := by
  refine ⟨(c5_moves [⟨0, 1⟩, ⟨1, 2⟩] 0).1, ?_, ?_⟩
  · have h := (c5_moves ([⟨0, 1⟩, ⟨1, 2⟩] : List StepW) 0).2.1
    simpa using h
  · have h := (c5_moves ([⟨0, 1⟩, ⟨1, 2⟩, ⟨2, 3⟩] : List StepW) 1).2.2.1
      (by decide) (by decide) 0
    simpa using h

/-! Section: Speed dial claims -/

/-- C6: the URL is trimmed; a non-empty trimmed URL lacking both scheme
prefixes gets `https://` prepended, while one already carrying a scheme
is unchanged; a blank URL is a validation failure (focus returns to the
URL field, nothing persisted or normalized), never auto-corrected. -/
theorem c6_url_normalization (raw : String) (st : SpeedDialState) (db : DBStub) :
    (pyStrip raw = "" → normalize_url raw = none)
    ∧ (pyStrip raw ≠ "" →
        (pyStartsWith (pyStrip raw) "http://" || pyStartsWith (pyStrip raw) "https://") = true →
        normalize_url raw = some (pyStrip raw))
    ∧ (pyStrip raw ≠ "" →
        (pyStartsWith (pyStrip raw) "http://" || pyStartsWith (pyStrip raw) "https://") = false →
        normalize_url raw = some (pyCat "https://" (pyStrip raw)))
    ∧ (pyStrip st.title_text ≠ "" → pyStrip st.url_text = "" →
        save_speed_dial st db =
          { accepted := false, emitted := none, persistError := false,
            focusTitle := false, focusUrl := true,
            calledUpdate := none, calledAdd := false })
    ∧ normalize_url "example.com" = some "https://example.com"
    ∧ normalize_url "http://x.com" = some "http://x.com"
    ∧ normalize_url "" = none := by
  refine ⟨?_, ?_, ?_, ?_, by decide, by decide, by decide⟩
  · intro h
    unfold normalize_url
    rw [if_pos h]
  · intro h1 h2
    unfold normalize_url
    rw [if_neg h1, if_pos h2]
  · intro h1 h2
    unfold normalize_url
    rw [if_neg h1, if_neg (by simp [h2])]
  · intro h1 h2
    unfold save_speed_dial
    rw [if_neg h1, if_pos h2]

/-- Witness for C6: `" example.com "` is trimmed and given the scheme,
and a blank URL with a valid title only refocuses the URL field. -/
theorem c6_url_normalization_witness :
    normalize_url " example.com " = some "https://example.com"
    ∧ save_speed_dial
        { is_edit_mode := false, edit_id := 0, title_text := "Google",
          url_text := "  ", icon_text := "", selected_color := "#16213e" }
        { updateRes := .ok true, addRes := .ok (some 5) }
      = { accepted := false, emitted := none, persistError := false,
          focusTitle := false, focusUrl := true,
          calledUpdate := none, calledAdd := false } := by
  constructor
  · have h := (c6_url_normalization " example.com "
        { is_edit_mode := false, edit_id := 0, title_text := "", url_text := "",
          icon_text := "", selected_color := "" }
        { updateRes := .ok true, addRes := .ok none }).2.2.1 (by decide) (by decide)
    simpa using h
  · exact (c6_url_normalization ""
        { is_edit_mode := false, edit_id := 0, title_text := "Google",
          url_text := "  ", icon_text := "", selected_color := "#16213e" }
        { updateRes := .ok true, addRes := .ok (some 5) }).2.2.2.1
      (by decide) (by decide)

/-- C7: once local validation passes, edit mode calls update-by-id and
create mode calls create-and-return-id; a falsy collaborator result
leaves the dialog open with a persistence error and no notification; a
truthy result closes the dialog, and only create mode emits the
`speed_dial_added` record (assigned id, trimmed title, normalized URL,
icon, background colour). -/
theorem c7_submit_branching (st : SpeedDialState) (db : DBStub)
    (ht : pyStrip st.title_text ≠ "") (hu : pyStrip st.url_text ≠ "") :
    (st.is_edit_mode = true →
        (save_speed_dial st db).calledUpdate = some st.edit_id
        ∧ (save_speed_dial st db).calledAdd = false)
    ∧ (st.is_edit_mode = false →
        (save_speed_dial st db).calledAdd = true
        ∧ (save_speed_dial st db).calledUpdate = none)
    ∧ (st.is_edit_mode = true → db.updateRes = .ok false →
        (save_speed_dial st db).accepted = false
        ∧ (save_speed_dial st db).emitted = none
        ∧ (save_speed_dial st db).persistError = true)
    ∧ (st.is_edit_mode = false → (db.addRes = .ok none ∨ db.addRes = .ok (some 0)) →
        (save_speed_dial st db).accepted = false
        ∧ (save_speed_dial st db).emitted = none
        ∧ (save_speed_dial st db).persistError = true)
    ∧ (st.is_edit_mode = true → db.updateRes = .ok true →
        (save_speed_dial st db).accepted = true
        ∧ (save_speed_dial st db).emitted = none
        ∧ (save_speed_dial st db).persistError = false)
    ∧ (∀ n : Int, ∀ u : String,
        st.is_edit_mode = false → db.addRes = .ok (some n) → n ≠ 0 →
        normalize_url st.url_text = some u →
        (save_speed_dial st db).accepted = true
        ∧ (save_speed_dial st db).persistError = false
        ∧ (save_speed_dial st db).emitted =
            some { id := n, title := pyStrip st.title_text, url := u,
                   icon := if pyStrip st.icon_text = "" then defaultIcon
                           else pyStrip st.icon_text,
                   background_color := st.selected_color }) := by
  unfold save_speed_dial
  rw [if_neg ht, if_neg hu]
  refine ⟨?_, ?_, ?_, ?_, ?_, ?_⟩
  · intro hm
    rw [if_pos hm]
    cases hup : db.updateRes with
    | ok b => cases b <;> simp
    | error e => simp
  · intro hm
    rw [if_neg (by simp [hm])]
    cases hadd : db.addRes with
    | ok r =>
        cases r with
        | none => simp
        | some n => by_cases hn : n = 0 <;> simp [hn]
    | error e => simp
  · intro hm hup
    rw [if_pos hm, hup]
    exact ⟨rfl, rfl, rfl⟩
  · intro hm hadd
    rw [if_neg (by simp [hm])]
    rcases hadd with h | h <;> rw [h] <;> exact ⟨rfl, rfl, rfl⟩
  · intro hm hup
    rw [if_pos hm, hup]
    exact ⟨rfl, rfl, rfl⟩
  · intro n u hm hadd hn hnorm
    have hn' : (n != 0) = true := by simpa using hn
    rw [if_neg (by simp [hm])]
    simp only [hadd]
    rw [if_pos hn']
    unfold normalize_url at hnorm
    rw [if_neg hu] at hnorm
    by_cases hs : (pyStartsWith (pyStrip st.url_text) "http://"
        || pyStartsWith (pyStrip st.url_text) "https://") = true
    · rw [if_pos hs] at hnorm ⊢
      injection hnorm with hnorm
      subst hnorm
      exact ⟨rfl, rfl, rfl⟩
    · rw [if_neg hs] at hnorm ⊢
      injection hnorm with hnorm
      subst hnorm
      exact ⟨rfl, rfl, rfl⟩

/-- Witness for C7: a concrete create-mode submit with a returned id 5
closes the dialog and emits the full record; a concrete edit-mode submit
whose update returns `False` stays open with a persistence error. -/
theorem c7_submit_branching_witness :
    (save_speed_dial
        { is_edit_mode := false, edit_id := 0, title_text := " Google ",
          url_text := " example.com ", icon_text := "", selected_color := "#16213e" }
        { updateRes := .ok true, addRes := .ok (some 5) }).emitted
      = some { id := 5, title := "Google", url := "https://example.com",
               icon := defaultIcon, background_color := "#16213e" }
    ∧ (save_speed_dial
        { is_edit_mode := true, edit_id := 7, title_text := "T",
          url_text := "http://x.com", icon_text := "⚡", selected_color := "#000000" }
        { updateRes := .ok false, addRes := .ok none }).persistError = true := by
  constructor
  · exact ((c7_submit_branching
        { is_edit_mode := false, edit_id := 0, title_text := " Google ",
          url_text := " example.com ", icon_text := "", selected_color := "#16213e" }
        { updateRes := .ok true, addRes := .ok (some 5) }
        (by decide) (by decide)).2.2.2.2.2 5 "https://example.com"
        rfl rfl (by decide) (by decide)).2.2
  · exact ((c7_submit_branching
        { is_edit_mode := true, edit_id := 7, title_text := "T",
          url_text := "http://x.com", icon_text := "⚡", selected_color := "#000000" }
        { updateRes := .ok false, addRes := .ok none }
        (by decide) (by decide)).2.2.1 rfl rfl).2.2

/-- C8 counterexample: the list-creator submit has no `try/except`; with
a valid form and a collaborator that raises, `create_list` terminates
with the exception propagating (contradicting the claim that both
dialogs catch collaborator exceptions at the submit boundary). -/
theorem c8_counterexample :
    create_list
        { name_text := "Nightly", category := some 3, common_tags_text := "",
          step_labels := ["Build", ""] }
        (.error "boom")
      = .error "boom" := by
  decide

/-- C8 (amended): only the speed-dial dialog catches collaborator
exceptions at its submit boundary, logging them and treating them as a
persistence error with the dialog left open; in the list-creator dialog
`create_list` has no handler, so once validation passes a collaborator
exception propagates out of the submit operation. -/
theorem c8_exceptions (st : SpeedDialState) (db : DBStub) (e : String)
    (f : ListForm) (ctrl : Except String (Bool × String × List Int)) (e' : String) :
    (pyStrip st.title_text ≠ "" → pyStrip st.url_text ≠ "" →
        st.is_edit_mode = true → db.updateRes = .error e →
        (save_speed_dial st db).accepted = false
        ∧ (save_speed_dial st db).emitted = none
        ∧ (save_speed_dial st db).persistError = true)
    ∧ (pyStrip st.title_text ≠ "" → pyStrip st.url_text ≠ "" →
        st.is_edit_mode = false → db.addRes = .error e →
        (save_speed_dial st db).accepted = false
        ∧ (save_speed_dial st db).emitted = none
        ∧ (save_speed_dial st db).persistError = true)
    ∧ ((validate_form f).1 = true → ctrl = .error e' →
        create_list f ctrl = .error e') := by
  refine ⟨?_, ?_, ?_⟩
  · intro ht hu hm hup
    unfold save_speed_dial
    rw [if_neg ht, if_neg hu, if_pos hm, hup]
    exact ⟨rfl, rfl, rfl⟩
  · intro ht hu hm hadd
    unfold save_speed_dial
    rw [if_neg ht, if_neg hu, if_neg (by simp [hm]), hadd]
    exact ⟨rfl, rfl, rfl⟩
  · intro hv hctrl
    have hvf : validate_form f = (true, (validate_form f).2) := by
      rw [← hv]
    unfold create_list
    rw [hvf, hctrl]

/-- Witness for C8: a concrete edit-mode save whose update raises is
absorbed into a persistence error, and a concrete valid list submit with
a raising collaborator propagates the exception. -/
theorem c8_exceptions_witness :
    (save_speed_dial
        { is_edit_mode := true, edit_id := 7, title_text := "T",
          url_text := "http://x.com", icon_text := "", selected_color := "#000000" }
        { updateRes := .error "db down", addRes := .ok none }).persistError = true
    ∧ create_list
        { name_text := "Nightly", category := some 3, common_tags_text := "",
          step_labels := ["Build"] }
        (.error "db down")
      = .error "db down" := by
  constructor
  · exact ((c8_exceptions
        { is_edit_mode := true, edit_id := 7, title_text := "T",
          url_text := "http://x.com", icon_text := "", selected_color := "#000000" }
        { updateRes := .error "db down", addRes := .ok none } "db down"
        { name_text := "", category := none, common_tags_text := "", step_labels := [] }
        (.ok (true, "", [])) "").1
        (by decide) (by decide) rfl rfl).2.2
  · exact (c8_exceptions
        { is_edit_mode := true, edit_id := 7, title_text := "T",
          url_text := "http://x.com", icon_text := "", selected_color := "#000000" }
        { updateRes := .error "db down", addRes := .ok none } "db down"
        { name_text := "Nightly", category := some 3, common_tags_text := "",
          step_labels := ["Build"] }
        (.error "db down") "db down").2.2 (by decide) rfl

end WidgSid
